import Mathlib

/-!
Shallow embedding of the Investment-Research-Agent repository
(src/app.py, src/check_google_genai.py, src/check_toolbox_query_agent.py)
and proofs about the claims of its specification.

The repository is orchestration glue around third-party libraries: the
language model, the toolbox tool server, the reactive agent and the
Streamlit runtime are opaque here. The embedding models exactly what the
repository's own code does: the process environment as an association
list (os.environ maps strings to strings), Python truthiness on
optional strings, the Streamlit session state, the message lists passed
to the agent, and the configuration dictionaries the code builds. The
opaque agent's reply is a parameter (a function from the graph input to
the content of the last response message).
-/

namespace IRA

/-- The process environment after load_dotenv: an association list from
variable names to string values (os.environ maps str to str; a later
setEnv shadows an earlier binding, like an assignment). -/
abbrev Env : Type := List (String × String)

/-- os.getenv: the value of the most recent binding of a key, or none. -/
def getenv (e : Env) (k : String) : Option String :=
  (List.find? (fun p => p.1 = k) e).map (fun p => p.2)

/-- Assignment os.environ[k] = v: shadows any earlier binding. -/
def setEnv (e : Env) (k v : String) : Env := (k, v) :: e

/-- Python truthiness of a string-or-None value: None and the empty
string are falsy, every other string is truthy. -/
def pyTruthy : Option String → Bool
  | Option.none => false
  | Option.some s => s ≠ ""

/-- Python `a or b` on string-or-None values: a when a is truthy, else b. -/
def pyOr (a b : Option String) : Option String :=
  if pyTruthy a then a else b

/-- A Python value as os.environ can hand it out: os.environ is a
mapping from str to str, so a successful lookup is always a str; None
exists in the language but never among environ values. -/
inductive PyVal where
  | none
  | str (s : String)
deriving DecidableEq, Repr

/-- Python `x is None`. -/
def PyVal.isNone : PyVal → Bool
  | PyVal.none => true
  | PyVal.str _ => false

/-- The exceptions this repository's own code can raise. -/
inductive PyErr where
  | keyError (key : String)
  | valueError (msg : String)
  | typeError (msg : String)
deriving DecidableEq, Repr

/-- str(e) as the generic handler prints it (str of a KeyError is the
repr of the missing key, str of ValueError and TypeError their message). -/
def pyErrStr : PyErr → String
  | PyErr.keyError k => "'" ++ k ++ "'"
  | PyErr.valueError m => m
  | PyErr.typeError m => m

/-- Subscription os.environ[k]: raises KeyError when the key is absent,
and otherwise returns the bound value, which is a str. -/
def environItem (e : Env) (k : String) : Except PyErr PyVal :=
  match getenv e k with
  | Option.none => Except.error (PyErr.keyError k)
  | Option.some v => Except.ok (PyVal.str v)

/-- A LangChain message as app.py stores them in the session list. -/
inductive Message where
  | system (content : String)
  | ai (content : String)
  | human (content : String)
deriving DecidableEq, Repr

/-- A Python object in an argument position whose type the code checks
at run time (the callbacks argument of invoke_agent). -/
inductive PyObj where
  | list (elems : Nat)
  | strVal (s : String)
  | noneVal
deriving DecidableEq, Repr

/-- Python isinstance(x, list). -/
def PyObj.isList : PyObj → Bool
  | PyObj.list _ => true
  | _ => false

end IRA

namespace IRA.App

/-- app.py line 29: the system prompt of the UI script. -/
def SYSTEM_PROMPT : String :=
  "\nYou are a helpful investment research assistant. Use the provided tools to search for companies, \npeople, industries, and news articles from 2023. Leverage prior tool outputs and conversation memory \nto look up entities by ID or filter by attributes like location or sentiment. Use detailed tool outputs \nfor filtering or sorting as needed. Do not ask for user confirmations.\n"

/-- app.py lines 140-143 and 149-152: the initial assistant greeting. -/
def GREETING : String :=
  "How can I help you? You can research companies, articles, people."

/-- app.py lines 37-45: the predefined dropdown queries. -/
def QUERIES : List String :=
  [ "What industries deal with neurological implants?",
    "List 5 companies in those industries with descriptions, filtered by California.",
    "Who is working at these companies?",
    "What were the news articles in January 2023 with positive sentiment? List top 5.",
    "Summarize these articles.",
    "Which 3 companies were mentioned in these articles?",
    "Who are the board members at these companies?" ]

/-- The ToolboxClient constructed at app.py line 24, identified by the
server url it is pointed at. -/
structure ToolboxClient where
  url : String
deriving DecidableEq, Repr

/-- app.py line 24. -/
def toolbox_client : ToolboxClient := { url := "http://127.0.0.1:5000" }

/-- A toolset as load_toolset hands it back: third-party data, opaque
here except for the server it was loaded from. -/
structure Toolset where
  source_url : String
deriving DecidableEq, Repr

/-- toolbox_client.load_toolset(): opaque third-party call; the loaded
toolset is determined by the client's server url. -/
def load_toolset (c : ToolboxClient) : Toolset := { source_url := c.url }

/-- app.py line 25: the one module-level tool list, loaded once at
module start. -/
def tools : Toolset := load_toolset toolbox_client

/-- A MemorySaver checkpoint object: opaque third-party state store; an
allocation identity distinguishes distinct MemorySaver() calls. -/
structure MemorySaver where
  alloc_id : Nat
deriving DecidableEq, Repr

/-- app.py line 26: the one module-level memory object, allocated once
at module start. -/
def memory : MemorySaver := { alloc_id := 0 }

/-- The configuration a ChatOpenAI constructor call fixes. -/
structure ChatOpenAI where
  model : String
  api_key : String
  base_url : String
deriving DecidableEq, Repr

/-- app.py lines 61-67: initialize_llm, reading the key from the
environment (os.environ subscription would raise on an absent key; the
key reaching this point is passed in). -/
def initialize_llm (gemini_api_key : String) : ChatOpenAI :=
  { model := "gemini-2.5-flash",
    api_key := gemini_api_key,
    base_url := "https://generativelanguage.googleapis.com/v1beta/openai/" }

/-- The reactive agent create_react_agent hands back, as configured by
this repository: the bound model, tool list and checkpointer. -/
structure Agent where
  llm : ChatOpenAI
  bound_tools : Toolset
  checkpointer : MemorySaver
deriving DecidableEq, Repr

/-- app.py lines 103-106: create_agent binds the freshly initialized
llm with the module-level tools and memory. -/
def create_agent (gemini_api_key : String) : Agent :=
  { llm := initialize_llm gemini_api_key,
    bound_tools := tools,
    checkpointer := memory }

/-- The configurable dictionary inside the config of a graph invocation
(app.py line 127). -/
structure Configurable where
  thread_id : String
deriving DecidableEq, Repr

/-- The config dictionary of a graph invocation (app.py line 127). -/
structure GraphConfig where
  configurable : Configurable
  callbacks : PyObj
deriving DecidableEq, Repr

/-- What one agent.invoke call receives: the messages dictionary and
the config (app.py lines 124-128). -/
structure GraphInput where
  messages : List Message
  config : GraphConfig
deriving DecidableEq, Repr

/-- app.py lines 109-128: invoke_agent raises TypeError when callbacks
is not a list, and otherwise invokes the graph with the given messages
and a config holding the thread_id and the callbacks. The opaque
agent.invoke itself is not modelled here; the returned value records
exactly what was passed to it. -/
def invoke_agent (messages : List Message) (callbacks : PyObj)
    (thread_id : String) : Except PyErr GraphInput :=
  if callbacks.isList then
    Except.ok
      { messages := messages,
        config := { configurable := { thread_id := thread_id },
                    callbacks := callbacks } }
  else
    Except.error (PyErr.typeError "Callbacks must be a list")

/-- The Streamlit session state the script reads and writes: the
message list, the thread identifier, and the list of thread ids the
reset button has produced (absent in session_state until the first
reset, read only through .get with default [], so modelled as []). -/
structure SessionState where
  messages : List Message
  thread_id : String
  threads : List String
deriving DecidableEq, Repr

/-- app.py lines 140-143 and 149-152: the two-message initial list. -/
def initMessages : List Message :=
  [ Message.system SYSTEM_PROMPT, Message.ai GREETING ]

/-- app.py lines 138-145: on the first run of a session the keys are
absent and get their initial values; on a later run the stored state is
kept. -/
def sessionInit : Option SessionState → SessionState
  | Option.none =>
      { messages := initMessages, thread_id := "thread-1", threads := [] }
  | Option.some s => s

/-- app.py lines 148-154: the Start New Conversation handler resets the
message list, sets the thread id from the length of the threads list
plus one, and appends the new id to the threads list. -/
def resetConversation (s : SessionState) : SessionState :=
  let tid := "thread-" ++ toString (s.threads.length + 1)
  { messages := initMessages,
    thread_id := tid,
    threads := s.threads ++ [tid] }

/-- app.py lines 166-181: one script run's chat-turn handling, given
the selectbox value (none when nothing is selected), the chat_input
value (none when nothing was submitted) and the opaque agent's reply
function. prompt = question or prompt; if prompt is truthy, the human
message is appended, invoke_agent is called once with a one-element
callbacks list and the session thread id, and the content of the last
response message is appended as an AI message. Returns the new state
and the list of graph invocations made during the run. -/
def runChatTurn (respond : GraphInput → String) (s : SessionState)
    (question promptInput : Option String) :
    Except PyErr (SessionState × List GraphInput) :=
  match pyOr question promptInput with
  | Option.none => Except.ok (s, [])
  | Option.some p =>
      if p = "" then Except.ok (s, [])
      else
        let msgs := s.messages ++ [Message.human p]
        match invoke_agent msgs (PyObj.list 1) s.thread_id with
        | Except.error e => Except.error e
        | Except.ok gi =>
            Except.ok
              ({ s with messages := msgs ++ [Message.ai (respond gi)] },
               [gi])

/-- What ensure_api_key did to the run: whether the sidebar prompt was
rendered, whether st.stop() ended the run, and the environment it
leaves behind. -/
structure EnsureResult where
  prompted : Bool
  stopped : Bool
  env : Env
deriving DecidableEq, Repr

/-- app.py lines 48-58: ensure_api_key. When os.getenv of the key is
falsy it renders the sidebar prompt; an empty input means nothing was
entered yet and the run stops; a non-empty input is stored into
os.environ. Otherwise nothing happens. -/
def ensure_api_key (env : Env) (api_key_input : String) : EnsureResult :=
  if pyTruthy (getenv env "GEMINI_API_KEY") = false then
    if api_key_input = "" then
      { prompted := true, stopped := true, env := env }
    else
      { prompted := true, stopped := false,
        env := setEnv env "GEMINI_API_KEY" api_key_input }
  else
    { prompted := false, stopped := false, env := env }

/-- The outcome of one whole script run. -/
inductive RunOutcome where
  | stopped
  | crashed (e : PyErr)
  | completed (env : Env) (s : SessionState) (invocations : List GraphInput)
deriving DecidableEq, Repr

/-- app.py lines 131-181: one whole script run. ensure_api_key first
(st.stop() ends the run before the session init, the reset button and
the chat turn); then session init on the first run, the reset handler
when the button was clicked, and the chat turn. -/
def runScript (respond : GraphInput → String) (env : Env)
    (api_key_input : String) (session : Option SessionState)
    (resetClicked : Bool) (question promptInput : Option String) :
    RunOutcome :=
  let er := ensure_api_key env api_key_input
  if er.stopped then RunOutcome.stopped
  else
    let s0 := sessionInit session
    let s1 := if resetClicked then resetConversation s0 else s0
    match runChatTurn respond s1 question promptInput with
    | Except.error e => RunOutcome.crashed e
    | Except.ok (s2, invs) => RunOutcome.completed er.env s2 invs

end IRA.App

namespace IRA.CheckGenai

/-- The one generate_content call of check_google_genai.py, as the
script configures it (lines 13-15). -/
structure GenaiCall where
  model : String
  contents : String
deriving DecidableEq, Repr

/-- check_google_genai.py lines 7-16: after load_dotenv (the env
parameter is the environment it leaves behind), the script subscripts
os.environ (a KeyError when the key is absent), raises ValueError when
the looked-up value is None, and otherwise builds the client and makes
the single generate_content call. -/
def scriptRun (env : Env) : Except PyErr GenaiCall :=
  match environItem env "GEMINI_API_KEY" with
  | Except.error e => Except.error e
  | Except.ok v =>
      if v.isNone then
        Except.error (PyErr.valueError "GEMINI_API_KEY not found")
      else
        Except.ok
          { model := "gemini-2.5-flash",
            contents := "Explain how AI works in a few words" }

end IRA.CheckGenai

namespace IRA.CheckToolbox

/-- check_toolbox_query_agent.py line 16. -/
def GEMINI_BASE_URL : String :=
  "https://generativelanguage.googleapis.com/v1beta/openai/"

/-- check_toolbox_query_agent.py line 19: this script's system prompt
(different wording from the UI's). -/
def SYSTEM_PROMPT : String :=
  "\nYou are an investment research assistant. Use the provided tools to search for companies, \npeople, industries, and news articles from 2023. Leverage prior tool outputs to filter results \n(e.g., by location or sentiment) or as inputs for subsequent queries. Fetch detailed information \nwhen needed for filtering or sorting. Do not ask for user confirmations.\n"

/-- check_toolbox_query_agent.py lines 26-34: this script's query list
(different wording from the UI's). -/
def QUERIES : List String :=
  [ "What industries deal with neurological implants?",
    "List 5 companies in those industries with their description and filter afterwards by California.",
    "Who is working at these companies?",
    "What were the news in January 2023 with positive sentiment? List top 5 articles.",
    "Summarize these articles.",
    "Which 3 companies were mentioned by these articles?",
    "Who is working there as board members?" ]

/-- check_toolbox_query_agent.py lines 13-15: GEMINI_API_KEY is read
with os.environ.get; a falsy value (absent or empty) raises ValueError,
otherwise the key is the value read. -/
def keyCheck (env : Env) : Except PyErr String :=
  match getenv env "GEMINI_API_KEY" with
  | Option.none => Except.error (PyErr.valueError "GEMINI_API_KEY not found")
  | Option.some k =>
      if k = "" then Except.error (PyErr.valueError "GEMINI_API_KEY not found")
      else Except.ok k

/-- The try/except of main (check_toolbox_query_agent.py lines 44-66):
any exception from the body is caught and turned into the one printed
line; a normal body returns its own printed output. -/
def mainExceptionHandler (body : Except PyErr (List String)) : List String :=
  match body with
  | Except.ok out => out
  | Except.error e => ["An error occurred: " ++ pyErrStr e]

end IRA.CheckToolbox

namespace IRA

/-- One observable configuration or invocation action a standalone
script performs, at the granularity the spec describes the scripts. -/
inductive Step where
  | load_dotenv (path : Option String)
  | env_key_check
  | create_genai_client
  | generate_content (model : String) (contents : String)
  | print_out
  | init_chat_model (cfg : App.ChatOpenAI)
  | load_toolbox_tools (url : String)
  | init_memory_saver
  | create_react_agent_step
  | agent_ainvoke (message : String) (thread_id : String)
deriving DecidableEq, Repr

/-- check_google_genai.py, straight-line trace on a run where the key
lookup succeeds: load_dotenv, the key check, the genai client, one
generate_content call, one print. No model-with-tools setup, no
reactive agent, no memory object, no second turn. -/
def checkGoogleGenaiTrace : List Step :=
  [ Step.load_dotenv Option.none,
    Step.env_key_check,
    Step.create_genai_client,
    Step.generate_content "gemini-2.5-flash" "Explain how AI works in a few words",
    Step.print_out ]

/-- check_toolbox_query_agent.py main (lines 42-66), trace on a run
where nothing raises: the module prologue loads dotenv and checks the
key, main configures the ChatOpenAI model, loads the toolset, allocates
a MemorySaver, creates the reactive agent, and then for each query in
order prints the header, awaits one agent invocation on thread-1 with
the system prompt prepended to the query, prints the response and the
separator. -/
def checkToolboxTrace (key : String) : List Step :=
  [ Step.load_dotenv (Option.some ".env"),
    Step.env_key_check,
    Step.init_chat_model
      { model := "gemini-2.5-flash", api_key := key,
        base_url := CheckToolbox.GEMINI_BASE_URL },
    Step.load_toolbox_tools "http://127.0.0.1:5000",
    Step.init_memory_saver,
    Step.create_react_agent_step ]
  ++ List.flatten
      (CheckToolbox.QUERIES.map (fun q =>
        [ Step.print_out,
          Step.agent_ainvoke (CheckToolbox.SYSTEM_PROMPT ++ q) "thread-1",
          Step.print_out,
          Step.print_out ]))

/-- Modelled from the spec's words, for comparison with the traces of
the two scripts: a script that "configures a language model, attaches a
prebuilt reactive-agent construct, wires in a memory/checkpoint object,
and forwards conversation state between turns" — its trace configures a
chat model, creates the reactive agent, allocates a memory object, and
makes at least two distinct agent invocations on one thread identifier. -/
def SpecScriptShape (trace : List Step) : Prop :=
  (∃ cfg, Step.init_chat_model cfg ∈ trace) ∧
  Step.create_react_agent_step ∈ trace ∧
  Step.init_memory_saver ∈ trace ∧
  (∃ t m₁ m₂, m₁ ≠ m₂ ∧
    Step.agent_ainvoke m₁ t ∈ trace ∧ Step.agent_ainvoke m₂ t ∈ trace)

end IRA

namespace IRA.App

/-- The graph input one chat turn with effective prompt p sends from
session state s: the session list with the new human message appended,
and the config built by invoke_agent from the session thread id and the
one-element callbacks list. -/
def turnInvocation (s : SessionState) (p : String) : GraphInput :=
  { messages := s.messages ++ [Message.human p],
    config := { configurable := { thread_id := s.thread_id },
                callbacks := PyObj.list 1 } }

/-- The session state one chat turn with effective prompt p leaves
behind: the human message and the agent's reply appended. -/
def turnResult (respond : GraphInput → String) (s : SessionState)
    (p : String) : SessionState :=
  { s with
    messages := s.messages ++
      [Message.human p, Message.ai (respond (turnInvocation s p))] }

/-- Evaluation of one chat turn when the effective prompt is truthy. -/
theorem runChatTurn_truthy (respond : GraphInput → String)
    (s : SessionState) (question promptInput : Option String) (p : String)
    (h : pyOr question promptInput = Option.some p) (hp : p ≠ "") :
    runChatTurn respond s question promptInput =
      Except.ok (turnResult respond s p, [turnInvocation s p]) := by
  unfold runChatTurn
  rw [h]
  simp [hp, invoke_agent, PyObj.isList, turnResult, turnInvocation]

/-- Evaluation of one chat turn when the effective prompt is falsy: no
invocation, state unchanged. -/
theorem runChatTurn_falsy (respond : GraphInput → String)
    (s : SessionState) (question promptInput : Option String)
    (h : pyTruthy (pyOr question promptInput) = false) :
    runChatTurn respond s question promptInput = Except.ok (s, []) := by
  unfold runChatTurn
  cases hq : pyOr question promptInput with
  | none => rfl
  | some p =>
      rw [hq] at h
      simp only [pyTruthy, decide_eq_false_iff_not, ne_eq, not_not] at h
      simp [h]

/-- Reading back the key just stored. -/
theorem getenv_setEnv_same (e : Env) (k v : String) :
    getenv (setEnv e k v) k = Option.some v := by
  simp [getenv, setEnv, List.find?]

/-- One reset: the new thread id is thread-(length+1) and the threads
list grows by that id. -/
theorem resetConversation_eq (s : SessionState) :
    resetConversation s =
      { messages := initMessages,
        thread_id := "thread-" ++ toString (s.threads.length + 1),
        threads := s.threads ++ ["thread-" ++ toString (s.threads.length + 1)] } :=
  rfl

/-- After n resets of the initial session the threads list has n
entries. -/
theorem iterate_reset_threads_length (n : Nat) :
    ((resetConversation^[n]) (sessionInit Option.none)).threads.length = n := by
  induction n with
  | zero => rfl
  | succ m ih =>
      rw [Function.iterate_succ_apply', resetConversation_eq]
      simp [ih]

/-- The session states one conversation can reach: a state whose
message list is the fresh two-message list (the session init and the
reset handler both produce it), extended by any number of chat turns. -/
inductive InConversation (respond : GraphInput → String) :
    SessionState → Prop where
  | start : ∀ s, s.messages = initMessages → InConversation respond s
  | turn : ∀ s question promptInput s' invs, InConversation respond s →
      runChatTurn respond s question promptInput = Except.ok (s', invs) →
      InConversation respond s'

/-- Any turn only appends to the message list. -/
theorem runChatTurn_messages_grow (respond : GraphInput → String)
    (s : SessionState) (question promptInput : Option String)
    (s' : SessionState) (invs : List GraphInput)
    (h : runChatTurn respond s question promptInput = Except.ok (s', invs)) :
    ∃ tail, s'.messages = s.messages ++ tail := by
  cases hq : pyOr question promptInput with
  | none =>
      rw [runChatTurn_falsy respond s question promptInput (by rw [hq]; rfl)]
        at h
      simp only [Except.ok.injEq, Prod.mk.injEq] at h
      obtain ⟨rfl, rfl⟩ := h
      exact ⟨[], by simp⟩
  | some p =>
      by_cases hp : p = ""
      · rw [runChatTurn_falsy respond s question promptInput
          (by rw [hq, hp]; rfl)] at h
        simp only [Except.ok.injEq, Prod.mk.injEq] at h
        obtain ⟨rfl, rfl⟩ := h
        exact ⟨[], by simp⟩
      · rw [runChatTurn_truthy respond s question promptInput p hq hp] at h
        simp only [Except.ok.injEq, Prod.mk.injEq] at h
        obtain ⟨rfl, rfl⟩ := h
        exact ⟨_, rfl⟩

/-- Any turn leaves the thread id and the threads bookkeeping alone,
and every invocation it makes carries the session's thread id in its
config. -/
theorem runChatTurn_thread_fixed (respond : GraphInput → String)
    (s : SessionState) (question promptInput : Option String)
    (s' : SessionState) (invs : List GraphInput)
    (h : runChatTurn respond s question promptInput = Except.ok (s', invs)) :
    s'.thread_id = s.thread_id ∧ s'.threads = s.threads ∧
    ∀ gi ∈ invs, gi.config.configurable.thread_id = s.thread_id := by
  cases hq : pyOr question promptInput with
  | none =>
      rw [runChatTurn_falsy respond s question promptInput (by rw [hq]; rfl)]
        at h
      simp only [Except.ok.injEq, Prod.mk.injEq] at h
      obtain ⟨rfl, rfl⟩ := h
      exact ⟨rfl, rfl, by simp⟩
  | some p =>
      by_cases hp : p = ""
      · rw [runChatTurn_falsy respond s question promptInput
          (by rw [hq, hp]; rfl)] at h
        simp only [Except.ok.injEq, Prod.mk.injEq] at h
        obtain ⟨rfl, rfl⟩ := h
        exact ⟨rfl, rfl, by simp⟩
      · rw [runChatTurn_truthy respond s question promptInput p hq hp] at h
        simp only [Except.ok.injEq, Prod.mk.injEq] at h
        obtain ⟨rfl, rfl⟩ := h
        refine ⟨rfl, rfl, ?_⟩
        intro gi hgi
        simp only [List.mem_singleton] at hgi
        rw [hgi]
        rfl

end IRA.App

namespace IRA

/-- Every dropdown query is a non-empty string. -/
theorem mem_QUERIES_ne_empty (q : String) (h : q ∈ App.QUERIES) : q ≠ "" := by
  simp only [App.QUERIES, List.mem_cons, List.not_mem_nil, or_false] at h
  rcases h with rfl | rfl | rfl | rfl | rfl | rfl | rfl <;> decide

/-- C1: the configuration of every agent invocation made by the UI
carries exactly the current session's thread identifier: invoke_agent
puts its thread_id argument into config.configurable.thread_id, a chat
turn invokes with the session's thread id and leaves it unchanged, and
in every completed script run each invocation's config thread id equals
the session's thread id, so all turns of one conversation use the same
thread key of the checkpoint object. -/
theorem c1_config_carries_session_thread_id :
    (∀ messages callbacks thread_id gi,
      App.invoke_agent messages callbacks thread_id = Except.ok gi →
      gi.config.configurable.thread_id = thread_id) ∧
    (∀ respond s question promptInput s' invs,
      App.runChatTurn respond s question promptInput = Except.ok (s', invs) →
      s'.thread_id = s.thread_id ∧
      ∀ gi ∈ invs, gi.config.configurable.thread_id = s.thread_id) ∧
    (∀ respond env api_key_input session resetClicked question promptInput
        env' s' invs,
      App.runScript respond env api_key_input session resetClicked question
        promptInput = App.RunOutcome.completed env' s' invs →
      ∀ gi ∈ invs, gi.config.configurable.thread_id = s'.thread_id) := by
  refine ⟨?_, ?_, ?_⟩
  · intro messages callbacks thread_id gi h
    unfold App.invoke_agent at h
    split at h
    · simp only [Except.ok.injEq] at h
      rw [← h]
    · exact absurd h (by simp)
  · intro respond s question promptInput s' invs h
    have ht := App.runChatTurn_thread_fixed respond s question promptInput
      s' invs h
    exact ⟨ht.1, ht.2.2⟩
  · intro respond env api_key_input session resetClicked question promptInput
      env' s' invs h
    simp only [App.runScript] at h
    by_cases hs : (App.ensure_api_key env api_key_input).stopped
    · rw [if_pos hs] at h
      exact absurd h (by simp)
    · rw [if_neg hs] at h
      cases hrc : App.runChatTurn respond
          (if resetClicked then App.resetConversation (App.sessionInit session)
           else App.sessionInit session) question promptInput with
      | error e =>
          rw [hrc] at h
          exact absurd h (by simp)
      | ok pr =>
          obtain ⟨s2, invs2⟩ := pr
          rw [hrc] at h
          simp only [App.RunOutcome.completed.injEq] at h
          obtain ⟨-, rfl, rfl⟩ := h
          intro gi hgi
          have ht := App.runChatTurn_thread_fixed respond _ question
            promptInput s2 invs2 hrc
          rw [ht.1]
          exact ht.2.2 gi hgi

/-- Witness for C1: a concrete completed run whose one invocation's
config thread id equals the final session thread id. -/
theorem c1_config_carries_session_thread_id_witness :
    (App.turnInvocation (App.sessionInit Option.none)
        "Summarize these articles.").config.configurable.thread_id =
      (App.turnResult (fun _ => "ok") (App.sessionInit Option.none)
        "Summarize these articles.").thread_id := by
  exact c1_config_carries_session_thread_id.2.2 (fun _ => "ok")
    [("GEMINI_API_KEY", "k")] "" Option.none false
    (Option.some "Summarize these articles.") Option.none
    [("GEMINI_API_KEY", "k")]
    (App.turnResult (fun _ => "ok") (App.sessionInit Option.none)
      "Summarize these articles.")
    [App.turnInvocation (App.sessionInit Option.none)
      "Summarize these articles."]
    (by rfl)
    (App.turnInvocation (App.sessionInit Option.none)
      "Summarize these articles.")
    (by simp)

/-- C2: on a script run with a new user message (a truthy effective
prompt) the handler calls invoke_agent exactly once and appends exactly
one human and one AI message; on a run with no user message it makes no
invocation and leaves the message list unchanged. -/
theorem c2_one_invocation_per_user_message :
    (∀ respond s question promptInput p,
      pyOr question promptInput = Option.some p → p ≠ "" →
      App.runChatTurn respond s question promptInput =
        Except.ok (App.turnResult respond s p, [App.turnInvocation s p]) ∧
      (App.turnResult respond s p).messages =
        s.messages ++
          [Message.human p,
           Message.ai (respond (App.turnInvocation s p))]) ∧
    (∀ respond s question promptInput,
      pyTruthy (pyOr question promptInput) = false →
      App.runChatTurn respond s question promptInput = Except.ok (s, [])) := by
  constructor
  · intro respond s question promptInput p h hp
    exact ⟨App.runChatTurn_truthy respond s question promptInput p h hp, rfl⟩
  · intro respond s question promptInput h
    exact App.runChatTurn_falsy respond s question promptInput h

/-- Witness for C2: a concrete run with a submitted prompt makes one
invocation and appends two messages; one with neither widget set makes
none. -/
theorem c2_one_invocation_per_user_message_witness :
    App.runChatTurn (fun _ => "ok") (App.sessionInit Option.none)
        Option.none (Option.some "hello") =
      Except.ok
        (App.turnResult (fun _ => "ok") (App.sessionInit Option.none) "hello",
         [App.turnInvocation (App.sessionInit Option.none) "hello"]) ∧
    App.runChatTurn (fun _ => "ok") (App.sessionInit Option.none)
        Option.none Option.none =
      Except.ok (App.sessionInit Option.none, []) := by
  exact ⟨(c2_one_invocation_per_user_message.1 (fun _ => "ok")
      (App.sessionInit Option.none) Option.none (Option.some "hello") "hello"
      rfl (by decide)).1,
    c2_one_invocation_per_user_message.2 (fun _ => "ok")
      (App.sessionInit Option.none) Option.none Option.none rfl⟩

/-- C3: ensure_api_key leaves a non-empty configured key alone without
prompting; on an absent key it prompts, stores a non-empty entered key
into the environment (where every later read sees it), and on an empty
input it stops the run before the rest of the script. -/
theorem c3_ensure_api_key_behavior (env : Env) (input : String) :
    (∀ v, getenv env "GEMINI_API_KEY" = Option.some v → v ≠ "" →
      App.ensure_api_key env input =
        { prompted := false, stopped := false, env := env }) ∧
    (getenv env "GEMINI_API_KEY" = Option.none →
      (App.ensure_api_key env input).prompted = true ∧
      (input ≠ "" →
        App.ensure_api_key env input =
          { prompted := true, stopped := false,
            env := setEnv env "GEMINI_API_KEY" input } ∧
        getenv (setEnv env "GEMINI_API_KEY" input) "GEMINI_API_KEY" =
          Option.some input) ∧
      (input = "" →
        App.ensure_api_key env input =
          { prompted := true, stopped := true, env := env } ∧
        ∀ respond session resetClicked question promptInput,
          App.runScript respond env input session resetClicked question
            promptInput = App.RunOutcome.stopped)) := by
  constructor
  · intro v hv hne
    simp [App.ensure_api_key, hv, pyTruthy, hne]
  · intro hnone
    have hfalse : pyTruthy (getenv env "GEMINI_API_KEY") = false := by
      rw [hnone]; rfl
    refine ⟨?_, ?_, ?_⟩
    · by_cases hi : input = "" <;> simp [App.ensure_api_key, hfalse, hi]
    · intro hi
      exact ⟨by simp [App.ensure_api_key, hfalse, hi],
             App.getenv_setEnv_same env "GEMINI_API_KEY" input⟩
    · intro hi
      subst hi
      refine ⟨by simp [App.ensure_api_key, hfalse], ?_⟩
      intro respond session resetClicked question promptInput
      simp [App.runScript, App.ensure_api_key, hfalse]

/-- Witness for C3: an environment with a non-empty key is untouched; a
key typed into the sidebar on an empty environment is stored; an empty
environment with nothing typed stops the run. -/
theorem c3_ensure_api_key_behavior_witness :
    App.ensure_api_key [("GEMINI_API_KEY", "k")] "" =
      { prompted := false, stopped := false,
        env := [("GEMINI_API_KEY", "k")] } ∧
    App.ensure_api_key [] "typed-key" =
      { prompted := true, stopped := false,
        env := setEnv [] "GEMINI_API_KEY" "typed-key" } ∧
    App.runScript (fun _ => "ok") [] "" Option.none false Option.none
      Option.none = App.RunOutcome.stopped := by
  refine ⟨(c3_ensure_api_key_behavior [("GEMINI_API_KEY", "k")] "").1 "k" rfl
      (by decide), ?_, ?_⟩
  · exact (((c3_ensure_api_key_behavior [] "typed-key").2 rfl).2.1
      (by decide)).1
  · exact ((((c3_ensure_api_key_behavior [] "").2 rfl).2.2 rfl).2
      (fun _ => "ok") Option.none false Option.none Option.none)

/-- C4: create_agent always binds a ChatOpenAI client with model
gemini-2.5-flash and the Gemini OpenAI-compatible base url, together
with the module-level toolset (loaded once from the toolbox server) and
the module-level memory object; the toolset and memory bound are the
same for every call. -/
theorem c4_create_agent_fixed_configuration :
    (∀ key, App.create_agent key =
      { llm := { model := "gemini-2.5-flash", api_key := key,
                 base_url :=
                   "https://generativelanguage.googleapis.com/v1beta/openai/" },
        bound_tools := App.tools,
        checkpointer := App.memory }) ∧
    App.tools = App.load_toolset { url := "http://127.0.0.1:5000" } ∧
    App.memory = { alloc_id := 0 } ∧
    (∀ k₁ k₂,
      (App.create_agent k₁).bound_tools = (App.create_agent k₂).bound_tools ∧
      (App.create_agent k₁).checkpointer =
        (App.create_agent k₂).checkpointer) := by
  exact ⟨fun key => rfl, rfl, rfl, fun k₁ k₂ => ⟨rfl, rfl⟩⟩

/-- C5 counterexample: the codebase does raise its own typed errors:
invoke_agent raises TypeError for a non-list callbacks argument
(app.py lines 120-121), and the key check of check_toolbox_query_agent
raises ValueError on a missing key (lines 14-15), so the claim that no
operation raises a typed error for invalid input or missing
configuration is false. -/
theorem c5_counterexample_typed_raises :
    App.invoke_agent [] PyObj.noneVal "thread-1" =
      Except.error (PyErr.typeError "Callbacks must be a list") ∧
    CheckToolbox.keyCheck [] =
      Except.error (PyErr.valueError "GEMINI_API_KEY not found") := by
  exact ⟨rfl, rfl⟩

/-- C5 amended: the repository's only exception handler is the single
generic catch-and-print of check_toolbox_query_agent.main, but the
codebase does raise its own typed errors: invoke_agent raises TypeError
exactly when its callbacks argument is not a list, and the toolbox
script's key check raises ValueError exactly when the key is missing or
empty; the generic handler turns any exception into one printed line. -/
theorem c5_typed_errors_amended :
    (∀ messages callbacks thread_id,
      (App.invoke_agent messages callbacks thread_id =
        Except.error (PyErr.typeError "Callbacks must be a list")) ↔
      callbacks.isList = false) ∧
    (∀ env, (CheckToolbox.keyCheck env =
        Except.error (PyErr.valueError "GEMINI_API_KEY not found")) ↔
      pyTruthy (getenv env "GEMINI_API_KEY") = false) ∧
    (∀ e, CheckToolbox.mainExceptionHandler (Except.error e) =
      ["An error occurred: " ++ pyErrStr e]) ∧
    (∀ out, CheckToolbox.mainExceptionHandler (Except.ok out) = out) := by
  refine ⟨?_, ?_, fun e => rfl, fun out => rfl⟩
  · intro messages callbacks thread_id
    cases callbacks <;> simp [App.invoke_agent, PyObj.isList]
  · intro env
    cases hg : getenv env "GEMINI_API_KEY" with
    | none => simp [CheckToolbox.keyCheck, hg, pyTruthy]
    | some k =>
        by_cases hk : k = "" <;>
          simp [CheckToolbox.keyCheck, hg, pyTruthy, hk]

/-- C6 counterexample: check_google_genai.py does not fit the spec's
description of the two standalone scripts: its trace configures no chat
model, creates no reactive agent, allocates no memory object and makes
no agent invocation at all, so it is not a near-duplicate of the
agent-construction and invocation logic. -/
theorem c6_counterexample_genai_no_agent :
    ¬ SpecScriptShape checkGoogleGenaiTrace := by
  intro h
  obtain ⟨⟨cfg, hmem⟩, -, -, -⟩ := h
  simp [checkGoogleGenaiTrace] at hmem

set_option maxRecDepth 8000 in
/-- C6 amended: only check_toolbox_query_agent.py configures a language
model, attaches the prebuilt reactive agent, wires in a memory object
and forwards conversation state between turns (several distinct
invocations on thread-1); check_google_genai.py makes a single one-shot
generate_content call with no reactive agent, no memory object and no
agent invocation. -/
theorem c6_scripts_not_near_duplicates :
    (∀ key, SpecScriptShape (checkToolboxTrace key)) ∧
    ¬ SpecScriptShape checkGoogleGenaiTrace ∧
    Step.create_react_agent_step ∉ checkGoogleGenaiTrace ∧
    Step.init_memory_saver ∉ checkGoogleGenaiTrace ∧
    (∀ m t, Step.agent_ainvoke m t ∉ checkGoogleGenaiTrace) ∧
    Step.generate_content "gemini-2.5-flash"
      "Explain how AI works in a few words" ∈ checkGoogleGenaiTrace := by
  refine ⟨?_, ?_, by decide, by decide, ?_, by decide⟩
  · intro key
    refine ⟨⟨⟨"gemini-2.5-flash", key, CheckToolbox.GEMINI_BASE_URL⟩, ?_⟩, ?_, ?_,
      "thread-1",
      CheckToolbox.SYSTEM_PROMPT ++
        "What industries deal with neurological implants?",
      CheckToolbox.SYSTEM_PROMPT ++ "Summarize these articles.",
      ?_, ?_, ?_⟩
    · simp [checkToolboxTrace]
    · simp [checkToolboxTrace, CheckToolbox.QUERIES]
    · simp [checkToolboxTrace, CheckToolbox.QUERIES]
    · decide
    · simp [checkToolboxTrace, CheckToolbox.QUERIES]
    · simp [checkToolboxTrace, CheckToolbox.QUERIES]
  · intro h
    obtain ⟨⟨cfg, hmem⟩, -, -, -⟩ := h
    simp [checkGoogleGenaiTrace] at hmem
  · intro m t h
    simp [checkGoogleGenaiTrace] at h

/-- C7: on each user turn the UI passes the agent the entire
accumulated session message list (the one just extended by the new
human message), the turn only appends to the list, and every state of
one conversation has the system prompt and the initial greeting as its
first two messages, in order. -/
theorem c7_full_history_forwarded :
    (∀ respond s question promptInput s' invs,
      App.runChatTurn respond s question promptInput = Except.ok (s', invs) →
      (∀ gi ∈ invs, ∃ p, pyOr question promptInput = Option.some p ∧
        gi.messages = s.messages ++ [Message.human p] ∧
        s'.messages = gi.messages ++ [Message.ai (respond gi)]) ∧
      ∃ tail, s'.messages = s.messages ++ tail) ∧
    (∀ respond s, App.InConversation respond s →
      ∃ rest, s.messages = App.initMessages ++ rest) := by
  constructor
  · intro respond s question promptInput s' invs h
    refine ⟨?_, App.runChatTurn_messages_grow respond s question promptInput
      s' invs h⟩
    intro gi hgi
    cases hq : pyOr question promptInput with
    | none =>
        rw [App.runChatTurn_falsy respond s question promptInput
          (by rw [hq]; rfl)] at h
        simp only [Except.ok.injEq, Prod.mk.injEq] at h
        obtain ⟨rfl, rfl⟩ := h
        exact absurd hgi (by simp)
    | some p =>
        by_cases hp : p = ""
        · rw [App.runChatTurn_falsy respond s question promptInput
            (by rw [hq, hp]; rfl)] at h
          simp only [Except.ok.injEq, Prod.mk.injEq] at h
          obtain ⟨rfl, rfl⟩ := h
          exact absurd hgi (by simp)
        · rw [App.runChatTurn_truthy respond s question promptInput p hq hp]
            at h
          simp only [Except.ok.injEq, Prod.mk.injEq] at h
          obtain ⟨rfl, rfl⟩ := h
          simp only [List.mem_singleton] at hgi
          subst hgi
          exact ⟨p, rfl, rfl, by simp [App.turnResult, App.turnInvocation]⟩
  · intro respond s h
    induction h with
    | start s hm => exact ⟨[], by simp [hm]⟩
    | turn s question promptInput s' invs hs hrun ih =>
        obtain ⟨rest, hr⟩ := ih
        obtain ⟨tail, ht⟩ := App.runChatTurn_messages_grow respond s question
          promptInput s' invs hrun
        exact ⟨rest ++ tail, by rw [ht, hr, List.append_assoc]⟩

/-- Witness for C7: a concrete turn from the fresh session only extends
the message list. -/
theorem c7_full_history_forwarded_witness :
    ∃ tail,
      (App.turnResult (fun _ => "ok") (App.sessionInit Option.none)
        "hello").messages = (App.sessionInit Option.none).messages ++ tail := by
  exact (c7_full_history_forwarded.1 (fun _ => "ok")
    (App.sessionInit Option.none) Option.none (Option.some "hello")
    (App.turnResult (fun _ => "ok") (App.sessionInit Option.none) "hello")
    [App.turnInvocation (App.sessionInit Option.none) "hello"] rfl).2

/-- C8: the initial session thread id is thread-1 and the first press
of Start New Conversation sets it to thread-1 again (the same
memory/checkpoint key as the original conversation); successive presses
produce thread-1, thread-2, thread-3, and in general the n-th reset
yields thread-n. -/
theorem c8_reset_thread_id_sequence :
    (App.sessionInit Option.none).thread_id = "thread-1" ∧
    (App.resetConversation (App.sessionInit Option.none)).thread_id =
      "thread-1" ∧
    (App.resetConversation (App.sessionInit Option.none)).thread_id =
      (App.sessionInit Option.none).thread_id ∧
    ((App.resetConversation^[2]) (App.sessionInit Option.none)).thread_id =
      "thread-2" ∧
    ((App.resetConversation^[3]) (App.sessionInit Option.none)).thread_id =
      "thread-3" ∧
    ∀ n, ((App.resetConversation^[n + 1])
        (App.sessionInit Option.none)).thread_id =
      "thread-" ++ toString (n + 1) := by
  refine ⟨rfl, by decide, by decide, by decide, by decide, ?_⟩
  intro n
  rw [Function.iterate_succ_apply', App.resetConversation_eq]
  simp [App.iterate_reset_threads_length]

/-- C9: when both a dropdown question and a free-text prompt are
present, the dropdown question is the user message sent to the agent
and the run is identical to one where nothing was typed (the free text
is discarded); the free-text prompt takes effect only when no dropdown
question is selected. -/
theorem c9_dropdown_overrides_free_text :
    (∀ respond s q promptInput, q ∈ App.QUERIES →
      App.runChatTurn respond s (Option.some q) promptInput =
        Except.ok (App.turnResult respond s q, [App.turnInvocation s q]) ∧
      App.runChatTurn respond s (Option.some q) promptInput =
        App.runChatTurn respond s (Option.some q) Option.none) ∧
    (∀ promptInput, pyOr Option.none promptInput = promptInput) := by
  constructor
  · intro respond s q promptInput hq
    have hne : q ≠ "" := mem_QUERIES_ne_empty q hq
    have h1 : pyOr (Option.some q) promptInput = Option.some q := by
      simp [pyOr, pyTruthy, hne]
    have h2 : pyOr (Option.some q) Option.none = Option.some q := by
      simp [pyOr, pyTruthy, hne]
    exact ⟨App.runChatTurn_truthy respond s _ promptInput q h1 hne,
      by rw [App.runChatTurn_truthy respond s _ promptInput q h1 hne,
             App.runChatTurn_truthy respond s _ Option.none q h2 hne]⟩
  · intro promptInput; rfl

/-- Witness for C9: with the fifth canned question selected and free
text typed, the run equals the run with nothing typed. -/
theorem c9_dropdown_overrides_free_text_witness :
    App.runChatTurn (fun _ => "ok") (App.sessionInit Option.none)
        (Option.some "Summarize these articles.") (Option.some "typed text") =
      App.runChatTurn (fun _ => "ok") (App.sessionInit Option.none)
        (Option.some "Summarize these articles.") Option.none := by
  exact (c9_dropdown_overrides_free_text.1 (fun _ => "ok")
    (App.sessionInit Option.none) "Summarize these articles."
    (Option.some "typed text") (by decide)).2

/-- C10: in check_google_genai.py the ValueError branch is unreachable:
an absent GEMINI_API_KEY makes the os.environ subscription itself raise
KeyError, a present one is a str and never None, so no environment
makes the script raise the GEMINI_API_KEY-not-found ValueError. -/
theorem c10_genai_valueerror_unreachable (env : Env) :
    (getenv env "GEMINI_API_KEY" = Option.none →
      CheckGenai.scriptRun env =
        Except.error (PyErr.keyError "GEMINI_API_KEY")) ∧
    (∀ v, getenv env "GEMINI_API_KEY" = Option.some v →
      CheckGenai.scriptRun env =
        Except.ok { model := "gemini-2.5-flash",
                    contents := "Explain how AI works in a few words" }) ∧
    (∀ msg, CheckGenai.scriptRun env ≠
      Except.error (PyErr.valueError msg)) := by
  refine ⟨?_, ?_, ?_⟩
  · intro h
    simp [CheckGenai.scriptRun, environItem, h]
  · intro v h
    simp [CheckGenai.scriptRun, environItem, h, PyVal.isNone]
  · intro msg hcontra
    cases hg : getenv env "GEMINI_API_KEY" with
    | none => simp [CheckGenai.scriptRun, environItem, hg] at hcontra
    | some v =>
        simp [CheckGenai.scriptRun, environItem, hg, PyVal.isNone] at hcontra

/-- Witness for C10: the empty environment raises KeyError, one with
the key set completes the call, and neither yields the ValueError. -/
theorem c10_genai_valueerror_unreachable_witness :
    CheckGenai.scriptRun [] =
      Except.error (PyErr.keyError "GEMINI_API_KEY") ∧
    CheckGenai.scriptRun [("GEMINI_API_KEY", "k")] =
      Except.ok { model := "gemini-2.5-flash",
                  contents := "Explain how AI works in a few words" } ∧
    CheckGenai.scriptRun [] ≠
      Except.error (PyErr.valueError "GEMINI_API_KEY not found") := by
  exact ⟨(c10_genai_valueerror_unreachable []).1 rfl,
    (c10_genai_valueerror_unreachable [("GEMINI_API_KEY", "k")]).2.1 "k" rfl,
    (c10_genai_valueerror_unreachable []).2.2 "GEMINI_API_KEY not found"⟩

end IRA
